import Mathlib

/-!
Shallow embedding of the Django blog application
(`blog/views.py`, `users/tests.py`) and proofs of the specified
authorization, listing and registration properties.

The blog request handlers (`home`, `PostListView`, `UserPostListView`,
`PostDetailView`, `PostCreateView`, `PostUpdateView`, `PostDeleteView`)
are embedded as pure functions over an explicit store.  An HTTP
response is modelled by the `Response` type; handlers that mutate the
store return a `Response × Store` pair.
-/

namespace Blog

/-- A user account (`django.contrib.auth.models.User`): an opaque
identifier and a unique username; email and password are carried for
the registration lifecycle. -/
structure User where
  id : Nat
  username : String
  email : String
  password : String
deriving Repr, DecidableEq

/-- A blog post (`blog.models.Post`): title, content, a reference to
the author's user id, and the server-assigned creation timestamp
(`date_posted`), modelled as a natural number. -/
structure Post where
  id : Nat
  title : String
  content : String
  author : Nat
  datePosted : Nat
deriving Repr, DecidableEq

/-- The external stores visible to the blog views: the user table and
the post table. -/
structure Store where
  users : List User
  posts : List Post
deriving Repr, DecidableEq

/-- The actor attached to a request: `request.user`, either the
anonymous user or an authenticated user id. -/
inductive Actor where
  | anonymous
  | user (id : Nat)
deriving Repr, DecidableEq

/-- The outcome of a request, as the tests observe it: a 200 render
(with the data handed to the template), a 302 redirect to a target, a
403 forbidden, or a 404. -/
inductive Response where
  | render (posts : List Post)
  | renderPost (p : Post)
  | redirect (target : String)
  | forbidden
  | notFound
deriving Repr, DecidableEq

/-- `Post.objects.get(pk=pid)` / `get_object`: the first post whose id
matches. -/
def findPost (s : Store) (pid : Nat) : Option Post :=
  s.posts.find? (fun p => p.id == pid)

/-- `User.objects.get(username=...)` as used by `get_object_or_404` in
`UserPostListView.get_queryset`. -/
def findUser (s : Store) (username : String) : Option User :=
  s.users.find? (fun u => u.username == username)

/-- The `ordering = ['-date_posted']` / `.order_by('-date_posted')`
clause: sort by creation timestamp descending. -/
def orderByDatePostedDesc (ps : List Post) : List Post :=
  ps.mergeSort (fun a b => b.datePosted ≤ a.datePosted)

/-- `paginate_by = 8`: the 1-based page `page` of a list, at most 8
elements. -/
def pageOf (ps : List Post) (page : Nat) : List Post :=
  (ps.drop ((page - 1) * 8)).take 8

/-- Where `LoginRequiredMixin` sends an unauthenticated request
(302 to the login URL). -/
def loginRedirectTarget : String := "/login/"

/-- Where a successful create/update redirects
(`get_absolute_url` of the post). -/
def postDetailTarget (pid : Nat) : String :=
  "/post/" ++ toString pid ++ "/"

/-- `PostListView`: no auth mixin; all posts ordered by
`-date_posted`, paginated by 8.  The actor is ignored. -/
def postListView (s : Store) (_a : Actor) (page : Nat) : Response :=
  Response.render (pageOf (orderByDatePostedDesc s.posts) page)

/-- `UserPostListView`: `get_object_or_404(User, username=...)`, then
that user's posts ordered by `-date_posted`, paginated by 8.  The
actor is ignored. -/
def userPostListView (s : Store) (_a : Actor) (username : String) (page : Nat) : Response :=
  match findUser s username with
  | none => Response.notFound
  | some u =>
      Response.render
        (pageOf (orderByDatePostedDesc (s.posts.filter (fun p => p.author == u.id))) page)

/-- `PostDetailView`: no auth mixin; render the post or 404.  The
actor is ignored. -/
def postDetailView (s : Store) (_a : Actor) (pid : Nat) : Response :=
  match findPost s pid with
  | none => Response.notFound
  | some p => Response.renderPost p

/-- `PostCreateView` (`LoginRequiredMixin`): anonymous requests are
redirected to login with no write; an authenticated request appends a
new post whose author is `request.user` (`form_valid` sets
`form.instance.author = self.request.user`), with server-assigned id
and timestamp, and redirects to the new post. -/
def postCreateView (s : Store) (a : Actor) (title content : String)
    (newId now : Nat) : Response × Store :=
  match a with
  | .anonymous => (Response.redirect loginRedirectTarget, s)
  | .user uid =>
      let post : Post :=
        { id := newId, title := title, content := content,
          author := uid, datePosted := now }
      (Response.redirect (postDetailTarget newId),
       { s with posts := s.posts ++ [post] })

/-- `PostUpdateView` (`LoginRequiredMixin`, `UserPassesTestMixin`):
anonymous requests are redirected to login; a missing post is a 404;
`test_func` compares `request.user` with `post.author` and a failing
test is a 403 with no write; otherwise `form_valid` writes the new
title and content and re-stamps `author = request.user`, then
redirects to the post. -/
def postUpdateView (s : Store) (a : Actor) (pid : Nat) (title content : String) :
    Response × Store :=
  match a with
  | .anonymous => (Response.redirect loginRedirectTarget, s)
  | .user uid =>
      match findPost s pid with
      | none => (Response.notFound, s)
      | some post =>
          if post.author == uid then
            let post' : Post :=
              { post with title := title, content := content, author := uid }
            (Response.redirect (postDetailTarget pid),
             { s with posts := s.posts.map (fun q => if q.id == pid then post' else q) })
          else
            (Response.forbidden, s)

/-- `PostDeleteView` (`LoginRequiredMixin`, `UserPassesTestMixin`):
same gating as update; on success the post is removed and the response
redirects to `success_url = '/'`. -/
def postDeleteView (s : Store) (a : Actor) (pid : Nat) : Response × Store :=
  match a with
  | .anonymous => (Response.redirect loginRedirectTarget, s)
  | .user uid =>
      match findPost s pid with
      | none => (Response.notFound, s)
      | some post =>
          if post.author == uid then
            (Response.redirect "/",
             { s with posts := s.posts.filter (fun q => !(q.id == pid)) })
          else
            (Response.forbidden, s)

end Blog

namespace Users

/-- Modelled from the spec: the `users.models.Profile` record (the
module `users/models.py` is not in the sources; only `users/tests.py`
references it).  Exactly one per user, holding an optional image
reference defaulting to a placeholder. -/
structure Profile where
  userId : Nat
  image : String
deriving Repr, DecidableEq

/-- Modelled from the spec: the placeholder image a fresh profile
defaults to. -/
def defaultImage : String := "default.jpg"

/-- The confirmation message asserted verbatim by
`users/tests.py::test_messages_after_registration`. -/
def registerSuccessMsg : String :=
  "Your account has been created! You are now able to login"

/-- The field error asserted verbatim by
`users/tests.py::test_invalid_user_register_view`. -/
def emailErrorMsg : String := "Enter a valid email address."

/-- The field error asserted verbatim by
`users/tests.py::test_profile_update_form`. -/
def imageErrorMsg : String := "Upload a valid image."

/-- The registration form input (`username`, `email`, `password1`,
`password2`), as posted by the tests. -/
structure RegInput where
  username : String
  email : String
  password1 : String
  password2 : String
deriving Repr, DecidableEq

/-- Splitting a character list on a separator (each occurrence starts
a new segment, as `String.split` does). -/
def splitOnChar (sep : Char) (cs : List Char) : List (List Char) :=
  match cs with
  | [] => [[]]
  | c :: rest =>
      let parts := splitOnChar sep rest
      if c = sep then [] :: parts
      else
        match parts with
        | [] => [[c]]
        | p :: ps => (c :: p) :: ps

/-- Modelled from the spec: syntactic email validation (`users/forms.py`
is not in the sources).  The spec requires rejecting malformed
addresses such as ones missing a domain: a single `@` separating a
non-empty local part from a non-empty domain that contains a dot and
neither starts nor ends with one. -/
def validEmail (e : String) : Bool :=
  match splitOnChar '@' e.data with
  | [localPart, domain] =>
      !localPart.isEmpty && !domain.isEmpty && domain.contains '.' &&
      domain.head? != some '.' && domain.getLast? != some '.'
  | _ => false

/-- The state the registration lifecycle acts on: the user table, the
profile table, the queued user-visible messages, and the identity the
current session is authenticated as. -/
structure RegState where
  users : List Blog.User
  profiles : List Profile
  messages : List String
  sessionUser : Blog.Actor
deriving Repr, DecidableEq

/-- The outcome of a registration request: a 302 redirect to the login
page on success, or a re-render of the form with field-keyed error
messages. -/
inductive RegResult where
  | success (target : String)
  | failure (fieldErrors : List (String × String))
deriving Repr, DecidableEq

/-- Modelled from the spec: `register(username, email, password,
password_confirmation)` of `users/views.py` (not in the sources; its
behaviour is fixed by `users/tests.py` and spec section 4.2).
Validates username uniqueness, email syntax and uniqueness, and
password agreement; on failure no record is written and field-keyed
errors are returned; on success the user and its paired profile are
created together, exactly one confirmation message is queued, the
response redirects to the login page, and the session is not
authenticated as the new user. -/
def register (st : RegState) (inp : RegInput) (newId : Nat) :
    RegResult × RegState :=
  let errors : List (String × String) :=
    (if st.users.any (fun u => u.username == inp.username) then
       [("username", "A user with that username already exists.")] else []) ++
    (if !validEmail inp.email then [("email", emailErrorMsg)] else []) ++
    (if validEmail inp.email && st.users.any (fun u => u.email == inp.email) then
       [("email", "A user with that email already exists.")] else []) ++
    (if inp.password1 != inp.password2 then
       [("password2", "The two password fields did not match.")] else [])
  if errors.isEmpty then
    let u : Blog.User :=
      { id := newId, username := inp.username,
        email := inp.email, password := inp.password1 }
    let p : Profile := { userId := newId, image := defaultImage }
    (RegResult.success "/login/",
     { st with users := st.users ++ [u],
               profiles := st.profiles ++ [p],
               messages := st.messages ++ [registerSuccessMsg] })
  else
    (RegResult.failure errors, st)

/-- An uploaded payload for the profile-image field: either a valid
image file or bytes that do not decode as an image (such as the
`b"file_content"` fixture in `users/tests.py`). -/
inductive UploadPayload where
  | image (ref : String)
  | nonImage (raw : String)
deriving Repr, DecidableEq

/-- Modelled from the spec: the `ProfileUpdateForm` image update
(`users/forms.py` is not in the sources).  An absent upload keeps the
current image; a valid image replaces it; a non-image payload is
rejected with a field error on `image` and the profile is left
unchanged. -/
def profileUpdate (pr : Profile) (payload : Option UploadPayload) :
    RegResult × Profile :=
  match payload with
  | none => (RegResult.success "/profile/", pr)
  | some (.image ref) => (RegResult.success "/profile/", { pr with image := ref })
  | some (.nonImage _) => (RegResult.failure [("image", imageErrorMsg)], pr)

end Users

/-! ### Sample data for the witnesses (mirrors the fixtures of `blog/tests.py`) -/

/-- The fixture post of `blog/tests.py::BlogTests.setUp`. -/
def samplePost : Blog.Post :=
  { id := 1, title := "Test Post", content := "This is a test post content.",
    author := 1, datePosted := 5 }

/-- The fixture user of `blog/tests.py::BlogTests.setUp`. -/
def sampleUser : Blog.User :=
  { id := 1, username := "testuser", email := "testuser@example.com",
    password := "testpassword" }

/-- A concrete store holding the fixture user and post. -/
def sampleStore : Blog.Store :=
  { users := [sampleUser], posts := [samplePost] }

/-! ### Helper lemmas -/

/-- If `find?` located `post` under the id predicate, then after
mapping the update-in-place function the same lookup returns the
updated post. -/
theorem find?_map_update {l : List Blog.Post} {pid : Nat} {post post' : Blog.Post}
    (hfind : l.find? (fun p => p.id == pid) = some post)
    (hid : post'.id = pid) :
    (l.map (fun q => if q.id == pid then post' else q)).find? (fun p => p.id == pid)
      = some post' := by
  induction l with
  | nil => simp at hfind
  | cons q t ih =>
      by_cases h : q.id = pid
      · simp [h, hid]
      · have hq : ((fun r : Blog.Post => if r.id == pid then post' else r) q) = q := by
          simp [h]
        rw [List.find?_cons_of_neg _ (by simp [h])] at hfind
        simp only [List.map_cons, hq]
        rw [List.find?_cons_of_neg _ (by simp [h])]
        exact ih hfind

/-! ### Claim theorems -/

/-- C1: for every post `p` and every authenticated actor who is not
`p`'s author, an edit or delete attempt on `p` is answered with HTTP
403 forbidden and the store is returned unchanged — title, content,
author and existence of every post are exactly as before. -/
theorem nonAuthor_edit_delete_forbidden_store_unchanged
    (s : Blog.Store) (uid pid : Nat) (post : Blog.Post) (title content : String)
    (hfind : Blog.findPost s pid = some post)
    (hne : post.author ≠ uid) :
    Blog.postUpdateView s (.user uid) pid title content = (Blog.Response.forbidden, s) ∧
    Blog.postDeleteView s (.user uid) pid = (Blog.Response.forbidden, s) := by
  constructor <;>
    simp [Blog.postUpdateView, Blog.postDeleteView, hfind, hne]

/-- Witness for C1: in the fixture store, user 2 (not the author of
post 1) is rejected with 403 on both edit and delete, and the store is
unchanged. -/
theorem nonAuthor_edit_delete_forbidden_store_unchanged_witness :
    Blog.postUpdateView sampleStore (.user 2) 1 "Updated Post" "Updated Post Content"
        = (Blog.Response.forbidden, sampleStore) ∧
    Blog.postDeleteView sampleStore (.user 2) 1 = (Blog.Response.forbidden, sampleStore) :=
  nonAuthor_edit_delete_forbidden_store_unchanged sampleStore 2 1 samplePost
    "Updated Post" "Updated Post Content" (by decide) (by decide)

/-- C2: an anonymous create attempt is answered with a 302 redirect to
the login target and the store is unchanged (no post is created),
while an authenticated non-owner's edit or delete attempt is answered
with 403 forbidden and never with a redirect. -/
theorem deny_redirect_vs_forbidden_asymmetry
    (s : Blog.Store) (uid pid newId now : Nat) (post : Blog.Post) (t c : String)
    (hfind : Blog.findPost s pid = some post)
    (hne : post.author ≠ uid) :
    Blog.postCreateView s .anonymous t c newId now
        = (Blog.Response.redirect Blog.loginRedirectTarget, s) ∧
    (Blog.postUpdateView s (.user uid) pid t c).1 = Blog.Response.forbidden ∧
    (Blog.postDeleteView s (.user uid) pid).1 = Blog.Response.forbidden ∧
    (∀ target, (Blog.postUpdateView s (.user uid) pid t c).1 ≠ Blog.Response.redirect target) ∧
    (∀ target, (Blog.postDeleteView s (.user uid) pid).1 ≠ Blog.Response.redirect target) := by
  refine ⟨rfl, ?_, ?_, ?_, ?_⟩ <;>
    simp [Blog.postUpdateView, Blog.postDeleteView, hfind, hne]

/-- Witness for C2: concrete instance in the fixture store with actor
user 2 and post 1. -/
theorem deny_redirect_vs_forbidden_asymmetry_witness :
    Blog.postCreateView sampleStore .anonymous "New Post" "New Post Content" 2 6
        = (Blog.Response.redirect Blog.loginRedirectTarget, sampleStore) ∧
    (Blog.postUpdateView sampleStore (.user 2) 1 "X" "Y").1 = Blog.Response.forbidden ∧
    (Blog.postDeleteView sampleStore (.user 2) 1).1 = Blog.Response.forbidden ∧
    (∀ target, (Blog.postUpdateView sampleStore (.user 2) 1 "X" "Y").1
        ≠ Blog.Response.redirect target) ∧
    (∀ target, (Blog.postDeleteView sampleStore (.user 2) 1).1
        ≠ Blog.Response.redirect target) :=
  deny_redirect_vs_forbidden_asymmetry sampleStore 2 1 2 6 samplePost "X" "Y"
    (by decide) (by decide)

/-- C3: an allowed create appends a post whose author is the acting
user, and an allowed edit re-stamps the acting user as the stored
post's author (the `form_valid` assignment `form.instance.author =
self.request.user` in both views). -/
theorem allowed_create_edit_stamp_author
    (s : Blog.Store) (uid pid newId now : Nat) (post : Blog.Post) (t c : String)
    (hfind : Blog.findPost s pid = some post)
    (hown : post.author = uid) :
    (Blog.postCreateView s (.user uid) t c newId now).2.posts
        = s.posts ++ [{ id := newId, title := t, content := c,
                        author := uid, datePosted := now }] ∧
    Blog.findPost (Blog.postUpdateView s (.user uid) pid t c).2 pid
        = some { post with title := t, content := c, author := uid } := by
  constructor
  · rfl
  · have hid : post.id = pid := by
      have := List.find?_some hfind
      simpa using this
    simp only [Blog.postUpdateView, hfind, hown, beq_self_eq_true, if_true]
    exact find?_map_update hfind (by simp [hid])

/-- Witness for C3: the author (user 1) creates and edits in the
fixture store; both stored results carry author 1. -/
theorem allowed_create_edit_stamp_author_witness :
    (Blog.postCreateView sampleStore (.user 1) "Updated" "UpdatedC" 2 6).2.posts
        = sampleStore.posts ++ [{ id := 2, title := "Updated", content := "UpdatedC",
                                  author := 1, datePosted := 6 }] ∧
    Blog.findPost (Blog.postUpdateView sampleStore (.user 1) 1 "Updated" "UpdatedC").2 1
        = some { samplePost with title := "Updated", content := "UpdatedC", author := 1 } :=
  allowed_create_edit_stamp_author sampleStore 1 1 2 6 samplePost "Updated" "UpdatedC"
    (by decide) (by decide)

/-- C4: a post's author is allowed to edit it: the response is the
success redirect, the stored post afterwards has the new title and
content but the same author and id, every other post is untouched, and
no post is added or removed. -/
theorem author_edit_allowed_updates_exactly_title_content
    (s : Blog.Store) (uid pid : Nat) (post : Blog.Post) (t c : String)
    (hfind : Blog.findPost s pid = some post)
    (hown : post.author = uid) :
    (Blog.postUpdateView s (.user uid) pid t c).1
        = Blog.Response.redirect (Blog.postDetailTarget pid) ∧
    Blog.findPost (Blog.postUpdateView s (.user uid) pid t c).2 pid
        = some { post with title := t, content := c } ∧
    (∀ q ∈ s.posts, q.id ≠ pid → q ∈ (Blog.postUpdateView s (.user uid) pid t c).2.posts) ∧
    (Blog.postUpdateView s (.user uid) pid t c).2.posts.length = s.posts.length := by
  have hid : post.id = pid := by
    have := List.find?_some hfind
    simpa using this
  refine ⟨?_, ?_, ?_, ?_⟩
  · simp only [Blog.postUpdateView, hfind, hown, beq_self_eq_true, if_true]
  · simp only [Blog.postUpdateView, hfind, hown, beq_self_eq_true, if_true]
    exact find?_map_update hfind (by simp [hid])
  · intro q hq hqne
    simp only [Blog.postUpdateView, hfind, hown, beq_self_eq_true, if_true, List.mem_map]
    exact ⟨q, hq, by simp [hqne]⟩
  · simp only [Blog.postUpdateView, hfind, hown, beq_self_eq_true, if_true, List.length_map]

/-- Witness for C4: user 1 edits their own post 1 in the fixture
store. -/
theorem author_edit_allowed_updates_exactly_title_content_witness :
    (Blog.postUpdateView sampleStore (.user 1) 1 "Updated Post" "New C").1
        = Blog.Response.redirect (Blog.postDetailTarget 1) ∧
    Blog.findPost (Blog.postUpdateView sampleStore (.user 1) 1 "Updated Post" "New C").2 1
        = some { samplePost with title := "Updated Post", content := "New C" } ∧
    (∀ q ∈ sampleStore.posts, q.id ≠ 1 →
        q ∈ (Blog.postUpdateView sampleStore (.user 1) 1 "Updated Post" "New C").2.posts) ∧
    (Blog.postUpdateView sampleStore (.user 1) 1 "Updated Post" "New C").2.posts.length
        = sampleStore.posts.length :=
  author_edit_allowed_updates_exactly_title_content sampleStore 1 1 samplePost
    "Updated Post" "New C" (by decide) (by decide)

/-- C8: listing and detail require no authentication: their responses
do not depend on the actor, and are never a 403 and never a
redirect-to-login, for every actor including the anonymous one. -/
theorem view_list_and_detail_public
    (s : Blog.Store) (a : Blog.Actor) (pid page : Nat) (username : String) :
    Blog.postListView s a page = Blog.postListView s .anonymous page ∧
    Blog.postDetailView s a pid = Blog.postDetailView s .anonymous pid ∧
    Blog.userPostListView s a username page = Blog.userPostListView s .anonymous username page ∧
    Blog.postListView s a page ≠ Blog.Response.forbidden ∧
    (∀ t, Blog.postListView s a page ≠ Blog.Response.redirect t) ∧
    Blog.postDetailView s a pid ≠ Blog.Response.forbidden ∧
    (∀ t, Blog.postDetailView s a pid ≠ Blog.Response.redirect t) := by
  refine ⟨rfl, rfl, rfl, by simp [Blog.postListView], by simp [Blog.postListView], ?_, ?_⟩
  · unfold Blog.postDetailView
    cases Blog.findPost s pid <;> simp
  · intro t
    unfold Blog.postDetailView
    cases Blog.findPost s pid <;> simp

/-- C10: an author-filtered listing whose username resolves to no user
is a 404, never a rendered (in particular never an empty) listing. -/
theorem user_listing_unknown_username_notFound
    (s : Blog.Store) (a : Blog.Actor) (username : String) (page : Nat)
    (h : ∀ u ∈ s.users, u.username ≠ username) :
    Blog.userPostListView s a username page = Blog.Response.notFound ∧
    ∀ l, Blog.userPostListView s a username page ≠ Blog.Response.render l := by
  have hfind : Blog.findUser s username = none := by
    apply List.find?_eq_none.mpr
    intro u hu
    simp [h u hu]
  refine ⟨?_, ?_⟩ <;> simp [Blog.userPostListView, hfind]

/-- Witness for C10: the fixture store has no user named `ghost`; the
filtered listing for `ghost` is a 404. -/
theorem user_listing_unknown_username_notFound_witness :
    Blog.userPostListView sampleStore .anonymous "ghost" 1 = Blog.Response.notFound ∧
    ∀ l, Blog.userPostListView sampleStore .anonymous "ghost" 1 ≠ Blog.Response.render l :=
  user_listing_unknown_username_notFound sampleStore .anonymous "ghost" 1 (by decide)

/-- The listing order produced by `order_by('-date_posted')` is sorted:
pairwise non-increasing timestamps. -/
theorem orderByDatePostedDesc_pairwise (l : List Blog.Post) :
    (Blog.orderByDatePostedDesc l).Pairwise (fun p q => q.datePosted ≤ p.datePosted) := by
  have h := @List.sorted_mergeSort Blog.Post
    (fun a b : Blog.Post => decide (b.datePosted ≤ a.datePosted))
    (by intro a b c hab hbc; simp only [decide_eq_true_eq] at *; omega)
    (by intro a b; simp only [Bool.or_eq_true, decide_eq_true_eq]; omega) l
  simpa [Blog.orderByDatePostedDesc] using h

/-- Sorting for the listing is a permutation: no post is dropped or
duplicated. -/
theorem orderByDatePostedDesc_perm (l : List Blog.Post) :
    (Blog.orderByDatePostedDesc l).Perm l :=
  List.mergeSort_perm l _

/-- A page is a sublist of the full ordered sequence. -/
theorem pageOf_sublist (l : List Blog.Post) (page : Nat) :
    (Blog.pageOf l page).Sublist l :=
  (List.take_sublist _ _).trans (List.drop_sublist _ _)

/-- A page never holds more than `paginate_by = 8` posts. -/
theorem pageOf_length_le (l : List Blog.Post) (page : Nat) :
    (Blog.pageOf l page).length ≤ 8 :=
  List.length_take_le _ _

/-- C7: the unfiltered listing renders pages of at most 8 posts in
non-increasing timestamp order, over the full ordered sequence, which
is a permutation of all stored posts; the author-filtered listing
renders pages of at most 8 posts of that author only, in the same
order, over a permutation of exactly the stored posts of that
author. -/
theorem listing_ordered_filtered_paginated
    (s : Blog.Store) (a : Blog.Actor) (page pageU : Nat) (u : Blog.User) (username : String)
    (hu : Blog.findUser s username = some u) :
    (∃ l, Blog.postListView s a page = Blog.Response.render l ∧
        l.length ≤ 8 ∧ l.Pairwise (fun p q => q.datePosted ≤ p.datePosted)) ∧
    (Blog.orderByDatePostedDesc s.posts).Perm s.posts ∧
    (Blog.orderByDatePostedDesc s.posts).Pairwise (fun p q => q.datePosted ≤ p.datePosted) ∧
    (∃ l, Blog.userPostListView s a username pageU = Blog.Response.render l ∧
        l.length ≤ 8 ∧ (∀ p ∈ l, p.author = u.id) ∧
        l.Pairwise (fun p q => q.datePosted ≤ p.datePosted)) ∧
    (Blog.orderByDatePostedDesc (s.posts.filter (fun p => p.author == u.id))).Perm
        (s.posts.filter (fun p => p.author == u.id)) := by
  refine ⟨⟨_, rfl, pageOf_length_le _ _,
      List.Pairwise.sublist (pageOf_sublist _ _) (orderByDatePostedDesc_pairwise _)⟩,
    orderByDatePostedDesc_perm _, orderByDatePostedDesc_pairwise _,
    ⟨Blog.pageOf (Blog.orderByDatePostedDesc
        (s.posts.filter (fun p => p.author == u.id))) pageU, ?_, pageOf_length_le _ _, ?_,
      List.Pairwise.sublist (pageOf_sublist _ _) (orderByDatePostedDesc_pairwise _)⟩,
    orderByDatePostedDesc_perm _⟩
  · simp [Blog.userPostListView, hu]
  · intro p hp
    have h1 : p ∈ Blog.orderByDatePostedDesc (s.posts.filter (fun p => p.author == u.id)) :=
      (pageOf_sublist _ _).subset hp
    have h2 : p ∈ s.posts.filter (fun p => p.author == u.id) :=
      ((orderByDatePostedDesc_perm _).mem_iff).mp h1
    have := List.of_mem_filter h2
    simpa using this

/-- Witness for C7: the fixture store, the fixture user `testuser`,
page 1 on both listings. -/
theorem listing_ordered_filtered_paginated_witness :
    (∃ l, Blog.postListView sampleStore .anonymous 1 = Blog.Response.render l ∧
        l.length ≤ 8 ∧ l.Pairwise (fun p q => q.datePosted ≤ p.datePosted)) ∧
    (Blog.orderByDatePostedDesc sampleStore.posts).Perm sampleStore.posts ∧
    (Blog.orderByDatePostedDesc sampleStore.posts).Pairwise
        (fun p q => q.datePosted ≤ p.datePosted) ∧
    (∃ l, Blog.userPostListView sampleStore .anonymous "testuser" 1
            = Blog.Response.render l ∧
        l.length ≤ 8 ∧ (∀ p ∈ l, p.author = sampleUser.id) ∧
        l.Pairwise (fun p q => q.datePosted ≤ p.datePosted)) ∧
    (Blog.orderByDatePostedDesc
        (sampleStore.posts.filter (fun p => p.author == sampleUser.id))).Perm
        (sampleStore.posts.filter (fun p => p.author == sampleUser.id)) :=
  listing_ordered_filtered_paginated sampleStore .anonymous 1 1 sampleUser "testuser"
    (by decide)

/-- An empty registration state for the witnesses: fresh database,
anonymous session. -/
def sampleRegState : Users.RegState :=
  { users := [], profiles := [], messages := [], sessionUser := .anonymous }

/-- The valid registration input of
`users/tests.py::test_user_register_view`. -/
def sampleRegInput : Users.RegInput :=
  { username := "newuser", email := "newuser@example.com",
    password1 := "newpassword123", password2 := "newpassword123" }

/-- C5: a valid registration creates exactly one user and exactly one
profile, paired by the same fresh id, in the one atomic step; it
queues exactly one confirmation message, and the session identity is
unchanged (no auto-login). -/
theorem register_success_pairs_user_profile_one_message_no_autologin
    (st : Users.RegState) (inp : Users.RegInput) (newId : Nat)
    (hEmail : Users.validEmail inp.email = true)
    (hUname : ∀ u ∈ st.users, u.username ≠ inp.username)
    (hUmail : ∀ u ∈ st.users, u.email ≠ inp.email)
    (hPw : inp.password1 = inp.password2) :
    Users.register st inp newId
      = (Users.RegResult.success "/login/",
         { st with
             users := st.users ++ [{ id := newId, username := inp.username,
                                     email := inp.email, password := inp.password1 }],
             profiles := st.profiles ++ [{ userId := newId, image := Users.defaultImage }],
             messages := st.messages ++ [Users.registerSuccessMsg] }) ∧
    (Users.register st inp newId).2.sessionUser = st.sessionUser := by
  have ha : st.users.any (fun u => u.username == inp.username) = false := by
    simp only [List.any_eq_false]
    intro u hu
    simp [hUname u hu]
  have hb : st.users.any (fun u => u.email == inp.email) = false := by
    simp only [List.any_eq_false]
    intro u hu
    simp [hUmail u hu]
  have hmain : Users.register st inp newId
      = (Users.RegResult.success "/login/",
         { st with
             users := st.users ++ [{ id := newId, username := inp.username,
                                     email := inp.email, password := inp.password1 }],
             profiles := st.profiles ++ [{ userId := newId, image := Users.defaultImage }],
             messages := st.messages ++ [Users.registerSuccessMsg] }) := by
    simp [Users.register, ha, hb, hEmail, hPw]
  exact ⟨hmain, by rw [hmain]⟩

/-- Witness for C5: registering `newuser` in a fresh state. -/
theorem register_success_pairs_user_profile_one_message_no_autologin_witness :
    Users.register sampleRegState sampleRegInput 1
      = (Users.RegResult.success "/login/",
         { sampleRegState with
             users := sampleRegState.users ++
               [{ id := 1, username := sampleRegInput.username,
                  email := sampleRegInput.email,
                  password := sampleRegInput.password1 }],
             profiles := sampleRegState.profiles ++
               [{ userId := 1, image := Users.defaultImage }],
             messages := sampleRegState.messages ++ [Users.registerSuccessMsg] }) ∧
    (Users.register sampleRegState sampleRegInput 1).2.sessionUser
      = sampleRegState.sessionUser :=
  register_success_pairs_user_profile_one_message_no_autologin
    sampleRegState sampleRegInput 1 (by decide) (by decide) (by decide) rfl

/-- C6: a registration whose email is syntactically invalid fails with
a field-level error on `email` containing the validator message, and
the state is unchanged: no user and no profile is created. -/
theorem register_invalid_email_error_no_user
    (st : Users.RegState) (inp : Users.RegInput) (newId : Nat)
    (hEmail : Users.validEmail inp.email = false) :
    (∃ errs, Users.register st inp newId = (Users.RegResult.failure errs, st) ∧
        ("email", Users.emailErrorMsg) ∈ errs) ∧
    (Users.register st inp newId).2 = st := by
  have hmain : Users.register st inp newId
      = (Users.RegResult.failure
          ((if st.users.any (fun u => u.username == inp.username) then
              [("username", "A user with that username already exists.")] else []) ++
           ([("email", Users.emailErrorMsg)] ++
            (if inp.password1 != inp.password2 then
              [("password2", "The two password fields did not match.")] else []))), st) := by
    cases hb1 : st.users.any (fun u => u.username == inp.username) <;>
      cases hb2 : inp.password1 != inp.password2 <;>
        simp [Users.register, hEmail, hb1, hb2]
  refine ⟨⟨_, hmain, by simp⟩, by rw [hmain]⟩

/-- Witness for C6: the test input with email `invalidemail` on a
fresh state is rejected with the email field error and changes
nothing. -/
theorem register_invalid_email_error_no_user_witness :
    (∃ errs, Users.register sampleRegState
          { sampleRegInput with email := "invalidemail" } 1
        = (Users.RegResult.failure errs, sampleRegState) ∧
        ("email", Users.emailErrorMsg) ∈ errs) ∧
    (Users.register sampleRegState
        { sampleRegInput with email := "invalidemail" } 1).2 = sampleRegState :=
  register_invalid_email_error_no_user sampleRegState
    { sampleRegInput with email := "invalidemail" } 1 (by decide)

/-- C9: a profile-image update whose payload is not a valid image is
rejected with the field-level error on `image`, and the stored image
reference is left exactly as it was. -/
theorem profile_update_non_image_rejected_unchanged
    (pr : Users.Profile) (raw : String) :
    Users.profileUpdate pr (some (.nonImage raw))
      = (Users.RegResult.failure [("image", Users.imageErrorMsg)], pr) ∧
    (Users.profileUpdate pr (some (.nonImage raw))).2.image = pr.image :=
  ⟨rfl, rfl⟩
